import Mathlib

/-!
Shallow embedding of the FTD onboarding/deletion CLI (src/python/ftd.py and
src/python/poll_service.py).

The program issues REST calls against a remote API and polls a transaction
status URL.  We embed the pure decision logic of each Python function,
making the network explicit: an HTTP exchange is represented by the response
the transport delivers (`Except String Response`, where `.error` models a
raised `requests.exceptions.RequestException`), and each function returns a
trace recording the requests it issued, the sleeps it performed, and its
outcome (returned value or raised exception).
-/

set_option autoImplicit false

namespace Ftd

/-- A JSON value, as produced by Python's `response.json()`. -/
inductive Json where
  | null
  | bool (b : Bool)
  | num (n : Int)
  | str (s : String)
  | arr (elems : List Json)
  | obj (fields : List (String × Json))
deriving Repr

/-- Python `dict.get(key)`: the value bound to `key` in a JSON object, or
`None` when the key is absent (and on a non-object the attribute access
would fail; we return `none`, callers that care distinguish the case). -/
def Json.getField : Json → String → Option Json
  | .obj fields, key => fields.lookup key
  | _, _ => none

/-- Python truthiness of a JSON value: `None`, `False`, `0`, `""`, `[]` and
`\x7b\x7d` are falsy, everything else truthy.  Used by `if not polling_url:`
in `main` (src/python/ftd.py line 203). -/
def Json.pyFalsy : Json → Bool
  | .null => true
  | .bool b => !b
  | .num n => n == 0
  | .str s => s == ""
  | .arr elems => elems.isEmpty
  | .obj fields => fields.isEmpty

/-- An HTTP response as the Python code observes it: `response.status_code`,
`response.json()` and `response.text`. -/
structure Response where
  status_code : Nat
  body : Json
  text : String
deriving Repr

/-- A GET request issued by the polling loop: URL and header mapping. -/
structure GetRequest where
  url : String
  headers : List (String × String)
deriving Repr

/-- Result of one run of `poll_transaction_status`:
`timeout` models `return None`, `result` models `return status_data`,
`cdoError` models `raise CDOError(...)`, `transportError` models a
propagated `requests` exception. -/
inductive PollOutcome where
  | timeout
  | result (body : Json)
  | cdoError (msg : String)
  | transportError (msg : String)
deriving Repr

/-- Trace of one run of the polling loop: its outcome, the GET requests it
issued in order, and the sleeps it performed (each entry the number of
seconds passed to `time.sleep`). -/
structure PollTrace where
  outcome : PollOutcome
  requests : List GetRequest
  sleeps : List Int
deriving Repr

/-- The header mapping built at the top of `poll_transaction_status`
(src/python/ftd.py lines 149-152). -/
def pollHeaders (token : String) : List (String × String) :=
  [("Authorization", "Bearer " ++ token), ("Content-Type", "application/json")]

/-- Python `current_status in ['DONE', 'ERROR']` where `current_status` is
`status_data.get('cdoTransactionStatus')`: true exactly when the field is
present and is the string `DONE` or the string `ERROR`. -/
def isTerminalStatus : Option Json → Bool
  | some (.str s) => s == "DONE" || s == "ERROR"
  | _ => false

/-- The body of the `for attempt in range(max_attempts)` loop of
`poll_transaction_status` (src/python/ftd.py lines 154-170), by recursion on
the number of remaining iterations.  `getResponse attempt` is the transport
outcome of the GET issued on iteration `attempt` (0-based). -/
def pollGo (getResponse : Nat → Except String Response) (polling_url : String)
    (headers : List (String × String)) (delay_seconds : Int) :
    Nat → Nat → PollTrace
  | _, 0 => ⟨.timeout, [], []⟩
  | attempt, remaining + 1 =>
    let req : GetRequest := ⟨polling_url, headers⟩
    match getResponse attempt with
    | .error e => ⟨.transportError e, [req], []⟩
    | .ok response =>
      if response.status_code ∉ ([200, 202] : List Nat) then
        ⟨.cdoError ("Failed to poll status: " ++ response.text ++ " code: "
            ++ toString response.status_code), [req], []⟩
      else
        if isTerminalStatus (response.body.getField "cdoTransactionStatus") then
          ⟨.result response.body, [req], []⟩
        else
          let rest := pollGo getResponse polling_url headers delay_seconds
              (attempt + 1) remaining
          ⟨rest.outcome, req :: rest.requests, delay_seconds :: rest.sleeps⟩

/-- `poll_transaction_status` of src/python/ftd.py (lines 131-170).
`max_attempts` is an `Int` because argparse parses it with `type=int`;
`range(max_attempts)` is empty when it is zero or negative, which
`Int.toNat` models.  Defaults in the source: `max_attempts = 300`,
`delay_seconds = 10`. -/
def poll_transaction_status (getResponse : Nat → Except String Response)
    (polling_url token : String) (max_attempts delay_seconds : Int) : PollTrace :=
  pollGo getResponse polling_url (pollHeaders token) delay_seconds 0 max_attempts.toNat

end Ftd

namespace PollService

open Ftd

/-- The loop body of `poll_transaction_status` of src/python/poll_service.py
(lines 29-45), embedded independently of the copy in ftd.py. -/
def pollGo (getResponse : Nat → Except String Response) (polling_url : String)
    (headers : List (String × String)) (delay_seconds : Int) :
    Nat → Nat → PollTrace
  | _, 0 => ⟨.timeout, [], []⟩
  | attempt, remaining + 1 =>
    let req : GetRequest := ⟨polling_url, headers⟩
    match getResponse attempt with
    | .error e => ⟨.transportError e, [req], []⟩
    | .ok response =>
      if response.status_code ∉ ([200, 202] : List Nat) then
        ⟨.cdoError ("Failed to poll status: " ++ response.text ++ " code: "
            ++ toString response.status_code), [req], []⟩
      else
        if isTerminalStatus (response.body.getField "cdoTransactionStatus") then
          ⟨.result response.body, [req], []⟩
        else
          let rest := pollGo getResponse polling_url headers delay_seconds
              (attempt + 1) remaining
          ⟨rest.outcome, req :: rest.requests, delay_seconds :: rest.sleeps⟩

/-- `poll_transaction_status` of src/python/poll_service.py (lines 6-45).
It builds the same header mapping as the ftd.py copy (lines 24-27). -/
def poll_transaction_status (getResponse : Nat → Except String Response)
    (polling_url token : String) (max_attempts delay_seconds : Int) : PollTrace :=
  pollGo getResponse polling_url (pollHeaders token) delay_seconds 0 max_attempts.toNat

end PollService

namespace Ftd

/-- A POST request as constructed by the action-invoker functions: URL,
header mapping, and optional JSON body. -/
structure PostRequest where
  url : String
  headers : List (String × String)
  body : Option Json
deriving Repr

/-- Observable behaviour of one action-invoker call once the transport has
delivered a response: the request it built and sent, and its result —
`.ok` the parsed JSON body (`return response.json()`), `.error` the message
of the raised `CDOError`. -/
structure OpCall where
  request : PostRequest
  result : Except String Json
deriving Repr

/-- `initiate_ftd_onboarding_using_ztp` of src/python/ftd.py (lines 10-62),
given the response the transport delivered for its POST. -/
def initiate_ftd_onboarding_using_ztp (base_url token device_name serial_number
    access_policy_uuid admin_password : String) (response : Response) : OpCall :=
  let headers : List (String × String) :=
    [("Authorization", "Bearer " ++ token), ("Content-Type", "application/json")]
  let payload : Json := .obj
    [("name", .str device_name),
     ("serialNumber", .str serial_number),
     ("fmcAccessPolicyUid", .str access_policy_uuid),
     ("licenses", .arr [.str "BASE"]),
     ("adminPassword", .str admin_password)]
  { request := ⟨base_url ++ "/api/rest/v1/inventory/devices/ftds/ztp",
      headers, some payload⟩,
    result :=
      if response.status_code ≠ 202 then
        .error ("Failed to create ZTP request: " ++ response.text)
      else
        .ok response.body }

/-- `delete_ftd_device` of src/python/ftd.py (lines 64-92), given the
response the transport delivered for its POST. -/
def delete_ftd_device (base_url token device_uuid : String)
    (response : Response) : OpCall :=
  let headers : List (String × String) := [("Authorization", "Bearer " ++ token)]
  { request := ⟨base_url ++ "/api/rest/v1/inventory/devices/ftds/cdfmcManaged/"
        ++ device_uuid ++ "/delete", headers, none⟩,
    result :=
      if response.status_code ≠ 202 then
        .error ("Failed to delete FTD device: " ++ response.text)
      else
        .ok response.body }

/-- How the selected operation (`onboard` or `delete`) terminates, as `main`
observes it: the POST raised a transport exception, the function raised
`CDOError`, or it returned a parsed body. -/
inductive OpOutcome where
  | transportError (msg : String)
  | cdoError (msg : String)
  | ok (body : Json)
deriving Repr

/-- Lift an action-invoker result (the transport did deliver a response)
into the outcome `main` observes. -/
def opToOutcome : Except String Json → OpOutcome
  | .error msg => .cdoError msg
  | .ok body => .ok body

/-- Trace of one run of `main` after argument parsing: the process exit code
(0 when `main` returns normally, 1 when it calls `exit(1)`), the message of
the `CDOError` caught by the handler at line 219 (if any), the poll GET
requests issued, the sleeps performed, and the polling outcome when the
polling loop was reached. -/
structure MainTrace where
  exit_code : Nat
  cdo_error : Option String
  poll_requests : List GetRequest
  sleeps : List Int
  poll_outcome : Option PollOutcome
deriving Repr

/-- The body of `main` of src/python/ftd.py (lines 179-227) from the point
where the selected operation has terminated with `op`: extract
`transactionPollingUrl`, poll, and map every caught exception to `exit(1)`.
A 202 body that is not a JSON object makes `response.get` raise
`AttributeError` (caught at line 225); a present, truthy, non-string URL
value makes `requests.get` reject its argument before any HTTP request is
issued (caught at lines 222-227).  Both are modelled as exit code 1 with no
poll request and no `CDOError` message. -/
def mainRun (op : OpOutcome) (token : String) (max_attempts delay : Int)
    (getResponse : Nat → Except String Response) : MainTrace :=
  match op with
  | .transportError _ => ⟨1, none, [], [], none⟩
  | .cdoError msg => ⟨1, some msg, [], [], none⟩
  | .ok response_body =>
    match response_body with
    | .obj fields =>
      match (Json.obj fields).getField "transactionPollingUrl" with
      | none => ⟨1, some "No polling URL in response", [], [], none⟩
      | some v =>
        if v.pyFalsy then
          ⟨1, some "No polling URL in response", [], [], none⟩
        else
          match v with
          | .str polling_url =>
            let tr := poll_transaction_status getResponse polling_url token
                max_attempts delay
            match tr.outcome with
            | .timeout => ⟨0, none, tr.requests, tr.sleeps, some .timeout⟩
            | .result b => ⟨0, none, tr.requests, tr.sleeps, some (.result b)⟩
            | .cdoError m => ⟨1, some m, tr.requests, tr.sleeps, some (.cdoError m)⟩
            | .transportError m =>
              ⟨1, none, tr.requests, tr.sleeps, some (.transportError m)⟩
          | _ => ⟨1, none, [], [], none⟩
    | _ => ⟨1, none, [], [], none⟩

/-- The claim-side predicate on one poll response: accepted status code and
a non-terminal (possibly missing) transaction status. -/
def nonTerminalOk (r : Response) : Prop :=
  (r.status_code = 200 ∨ r.status_code = 202) ∧
    isTerminalStatus (r.body.getField "cdoTransactionStatus") = false

theorem pollGo_step_nonterminal (g : Nat → Except String Response) (url : String)
    (hdrs : List (String × String)) (d : Int) (a n : Nat) (r : Response)
    (hg : g a = .ok r) (hok : r.status_code = 200 ∨ r.status_code = 202)
    (hnt : isTerminalStatus (r.body.getField "cdoTransactionStatus") = false) :
    pollGo g url hdrs d a (n + 1) =
      ⟨(pollGo g url hdrs d (a + 1) n).outcome,
       ⟨url, hdrs⟩ :: (pollGo g url hdrs d (a + 1) n).requests,
       d :: (pollGo g url hdrs d (a + 1) n).sleeps⟩ := by
  have hmem : r.status_code ∈ ([200, 202] : List Nat) := by
    rcases hok with h | h <;> simp [h]
  simp [pollGo, hg, hmem, hnt]

theorem pollGo_step_terminal (g : Nat → Except String Response) (url : String)
    (hdrs : List (String × String)) (d : Int) (a n : Nat) (r : Response)
    (hg : g a = .ok r) (hok : r.status_code = 200 ∨ r.status_code = 202)
    (ht : isTerminalStatus (r.body.getField "cdoTransactionStatus") = true) :
    pollGo g url hdrs d a (n + 1) = ⟨.result r.body, [⟨url, hdrs⟩], []⟩ := by
  have hmem : r.status_code ∈ ([200, 202] : List Nat) := by
    rcases hok with h | h <;> simp [h]
  simp [pollGo, hg, hmem, ht]

theorem pollGo_step_badcode (g : Nat → Except String Response) (url : String)
    (hdrs : List (String × String)) (d : Int) (a n : Nat) (r : Response)
    (hg : g a = .ok r) (h200 : r.status_code ≠ 200) (h202 : r.status_code ≠ 202) :
    pollGo g url hdrs d a (n + 1) =
      ⟨.cdoError ("Failed to poll status: " ++ r.text ++ " code: "
          ++ toString r.status_code), [⟨url, hdrs⟩], []⟩ := by
  have hmem : r.status_code ∉ ([200, 202] : List Nat) := by
    simp [h200, h202]
  simp [pollGo, hg, hmem]

/-- Skipping a block of `k` non-terminal responses: the loop issues `k`
requests and `k` sleeps and continues from attempt `a + k`. -/
theorem pollGo_skip (g : Nat → Except String Response) (url : String)
    (hdrs : List (String × String)) (d : Int) :
    ∀ (k a n : Nat), k ≤ n →
    (∀ i, i < k → ∃ r, g (a + i) = .ok r ∧ nonTerminalOk r) →
    pollGo g url hdrs d a n =
      ⟨(pollGo g url hdrs d (a + k) (n - k)).outcome,
       List.replicate k ⟨url, hdrs⟩ ++ (pollGo g url hdrs d (a + k) (n - k)).requests,
       List.replicate k d ++ (pollGo g url hdrs d (a + k) (n - k)).sleeps⟩ := by
  intro k
  induction k with
  | zero => intro a n _ _; simp
  | succ k ih =>
    intro a n hk hnt
    obtain ⟨m, rfl⟩ : ∃ m, n = m + 1 := ⟨n - 1, by omega⟩
    obtain ⟨r, hg, hr⟩ := hnt 0 (Nat.succ_pos k)
    rw [pollGo_step_nonterminal g url hdrs d a m r (by simpa using hg) hr.1 hr.2]
    have hshift : ∀ i, i < k → ∃ r, g (a + 1 + i) = .ok r ∧ nonTerminalOk r := by
      intro i hi
      have := hnt (i + 1) (by omega)
      simpa [Nat.add_comm, Nat.add_assoc, Nat.add_left_comm] using this
    rw [ih (a + 1) m (by omega) hshift]
    have h1 : a + 1 + k = a + (k + 1) := by omega
    have h2 : m - k = m + 1 - (k + 1) := by omega
    rw [h1, h2]
    simp [List.replicate_succ]

/-- The loop performs at most `remaining` requests and at most `remaining`
sleeps. -/
theorem pollGo_length_le (g : Nat → Except String Response) (url : String)
    (hdrs : List (String × String)) (d : Int) :
    ∀ (n a : Nat), (pollGo g url hdrs d a n).requests.length ≤ n ∧
      (pollGo g url hdrs d a n).sleeps.length ≤ n := by
  intro n
  induction n with
  | zero => intro a; simp [pollGo]
  | succ n ih =>
    intro a
    simp only [pollGo]
    cases g a with
    | error e => simp
    | ok r =>
      by_cases hmem : r.status_code ∈ ([200, 202] : List Nat)
      · by_cases ht : isTerminalStatus (r.body.getField "cdoTransactionStatus")
        · simp [hmem, ht]
        · have := ih (a + 1)
          simp only [hmem, ht]
          simp only [not_true_eq_false, if_false, Bool.false_eq_true, if_neg]
          constructor
          · simpa using Nat.succ_le_succ (this.1)
          · simpa using Nat.succ_le_succ (this.2)
      · simp [hmem]

/-- Claim C1, as stated, is false on the code: with max_attempts = 1 and a
single non-terminal 200 response, the loop issues 1 GET and returns the
timeout sentinel, but it performs 1 sleep, not max_attempts - 1 = 0.  The
source executes time.sleep after every non-terminal response, including the
one of the final attempt (src/python/ftd.py line 168 runs before the loop
ends and line 170 returns None). -/
theorem C1_counterexample :
    poll_transaction_status (fun _ => .ok ⟨200, Json.obj [], ""⟩) "u" "t" 1 10
      = ⟨.timeout, [⟨"u", pollHeaders "t"⟩], [10]⟩ ∧
    ([(10 : Int)].length ≠ (1 : Nat) - 1) :=
  ⟨rfl, by decide⟩

/-- Claim C1 (amended): for max_attempts ≥ 1 and a response sequence whose
first max_attempts responses all have status code in range 200 or 202 and a
non-terminal status, poll_transaction_status returns the timeout sentinel,
issues exactly max_attempts GET requests to the polling URL, and performs
exactly max_attempts sleeps of delay_seconds each (one after every
non-terminal response, including the final one) — not max_attempts - 1. -/
theorem C1_poll_timeout (g : Nat → Except String Response) (url token : String)
    (ma d : Int) (_hma : 1 ≤ ma)
    (hnt : ∀ i, i < ma.toNat → ∃ r, g i = .ok r ∧ nonTerminalOk r) :
    poll_transaction_status g url token ma d =
      ⟨.timeout, List.replicate ma.toNat ⟨url, pollHeaders token⟩,
       List.replicate ma.toNat d⟩ := by
  unfold poll_transaction_status
  rw [pollGo_skip g url (pollHeaders token) d ma.toNat 0 ma.toNat le_rfl
    (by intro i hi; simpa using hnt i hi)]
  simp [pollGo]

/-- Closed instance of C1_poll_timeout: two non-terminal 202 responses,
max_attempts = 2, delay 7. -/
theorem C1_poll_timeout_witness :
    poll_transaction_status
      (fun _ => .ok ⟨202, Json.obj [("cdoTransactionStatus", Json.str "IN_PROGRESS")], ""⟩)
      "u" "t" 2 7
      = ⟨.timeout, List.replicate 2 ⟨"u", pollHeaders "t"⟩, List.replicate 2 7⟩ :=
  C1_poll_timeout _ "u" "t" 2 7 (by decide) (fun i _ => ⟨_, rfl, Or.inr rfl, rfl⟩)

/-- Claim C2: if the first k - 1 responses are accepted and non-terminal and
the k-th response is accepted with status DONE or ERROR, the loop returns
the k-th body unmodified, issues exactly k GET requests and performs exactly
k - 1 sleeps. -/
theorem C2_poll_terminal (g : Nat → Except String Response) (url token : String)
    (ma d : Int) (k : Nat) (rk : Response)
    (hk1 : 1 ≤ k) (hk2 : k ≤ ma.toNat)
    (hpre : ∀ i, i < k - 1 → ∃ r, g i = .ok r ∧ nonTerminalOk r)
    (hgk : g (k - 1) = .ok rk)
    (hcode : rk.status_code = 200 ∨ rk.status_code = 202)
    (hterm : rk.body.getField "cdoTransactionStatus" = some (.str "DONE") ∨
             rk.body.getField "cdoTransactionStatus" = some (.str "ERROR")) :
    poll_transaction_status g url token ma d =
      ⟨.result rk.body, List.replicate k ⟨url, pollHeaders token⟩,
       List.replicate (k - 1) d⟩ := by
  unfold poll_transaction_status
  rw [pollGo_skip g url (pollHeaders token) d (k - 1) 0 ma.toNat (by omega)
    (by intro i hi; simpa using hpre i hi)]
  obtain ⟨m, hm⟩ : ∃ m, ma.toNat - (k - 1) = m + 1 := ⟨ma.toNat - k, by omega⟩
  rw [hm]
  have hterm2 : isTerminalStatus (rk.body.getField "cdoTransactionStatus") = true := by
    rcases hterm with h | h <;> rw [h] <;> rfl
  rw [pollGo_step_terminal g url (pollHeaders token) d (0 + (k - 1)) m rk
    (by simpa using hgk) hcode hterm2]
  have h3 : List.replicate (k - 1) (⟨url, pollHeaders token⟩ : GetRequest)
      ++ [⟨url, pollHeaders token⟩] = List.replicate k ⟨url, pollHeaders token⟩ := by
    rw [← List.replicate_succ']
    congr 1
    omega
  simp [h3]

/-- Closed instance of C2_poll_terminal: the status sequence RUNNING,
RUNNING, DONE with max_attempts = 5 gives 3 calls, 2 sleeps, and the third
body as outcome. -/
theorem C2_poll_terminal_witness :
    poll_transaction_status
      (fun i => if i < 2
        then .ok ⟨200, Json.obj [("cdoTransactionStatus", Json.str "RUNNING")], ""⟩
        else .ok ⟨200, Json.obj [("cdoTransactionStatus", Json.str "DONE")], ""⟩)
      "u" "t" 5 10
      = ⟨.result (Json.obj [("cdoTransactionStatus", Json.str "DONE")]),
         List.replicate 3 ⟨"u", pollHeaders "t"⟩, List.replicate 2 10⟩ :=
  C2_poll_terminal _ "u" "t" 5 10 3
    ⟨200, Json.obj [("cdoTransactionStatus", Json.str "DONE")], ""⟩
    (by decide) (by decide)
    (fun i hi => ⟨⟨200, Json.obj [("cdoTransactionStatus", Json.str "RUNNING")], ""⟩,
      by simp [show i < 2 from hi], Or.inl rfl, rfl⟩)
    rfl (Or.inl rfl) (Or.inl rfl)

/-- Claim C3: when the response of attempt j + 1 (0-based index j) has a
status code that is neither 200 nor 202, the loop raises CDOError carrying
the response text and status code; it has issued exactly j + 1 GET requests
and performed exactly j sleeps, and performs no further attempt and no
further sleep after that response. -/
theorem C3_poll_bad_status (g : Nat → Except String Response) (url token : String)
    (ma d : Int) (j : Nat) (rj : Response)
    (hj : j < ma.toNat)
    (hpre : ∀ i, i < j → ∃ r, g i = .ok r ∧ nonTerminalOk r)
    (hgj : g j = .ok rj)
    (h200 : rj.status_code ≠ 200) (h202 : rj.status_code ≠ 202) :
    poll_transaction_status g url token ma d =
      ⟨.cdoError ("Failed to poll status: " ++ rj.text ++ " code: "
          ++ toString rj.status_code),
       List.replicate (j + 1) ⟨url, pollHeaders token⟩,
       List.replicate j d⟩ := by
  unfold poll_transaction_status
  rw [pollGo_skip g url (pollHeaders token) d j 0 ma.toNat (by omega)
    (by intro i hi; simpa using hpre i hi)]
  obtain ⟨m, hm⟩ : ∃ m, ma.toNat - j = m + 1 := ⟨ma.toNat - j - 1, by omega⟩
  rw [hm]
  rw [pollGo_step_badcode g url (pollHeaders token) d (0 + j) m rj
    (by simpa using hgj) h200 h202]
  have h3 : List.replicate j (⟨url, pollHeaders token⟩ : GetRequest)
      ++ [⟨url, pollHeaders token⟩] = List.replicate (j + 1) ⟨url, pollHeaders token⟩ := by
    rw [← List.replicate_succ']
  simp [h3]

/-- Closed instance of C3_poll_bad_status: a 404 on the second attempt after
one RUNNING response. -/
theorem C3_poll_bad_status_witness :
    poll_transaction_status
      (fun i => if i < 1
        then .ok ⟨200, Json.obj [("cdoTransactionStatus", Json.str "RUNNING")], ""⟩
        else .ok ⟨404, Json.obj [], "not found"⟩)
      "u" "t" 300 10
      = ⟨.cdoError ("Failed to poll status: " ++ "not found" ++ " code: " ++ toString (404 : Nat)),
         List.replicate 2 ⟨"u", pollHeaders "t"⟩, List.replicate 1 10⟩ :=
  C3_poll_bad_status _ "u" "t" 300 10 1 ⟨404, Json.obj [], "not found"⟩
    (by decide)
    (fun i hi => ⟨⟨200, Json.obj [("cdoTransactionStatus", Json.str "RUNNING")], ""⟩,
      by simp [hi], Or.inl rfl, rfl⟩)
    rfl (by decide) (by decide)

/-- Claim C6: a response with accepted status code whose body lacks the
cdoTransactionStatus field does not raise and is treated exactly like one
carrying an in-progress status value: in both cases the loop issues the GET,
performs the fixed sleep, and continues with the next attempt. -/
theorem C6_missing_status_nonterminal (g : Nat → Except String Response)
    (url : String) (hdrs : List (String × String)) (d : Int) (a n : Nat)
    (r : Response) (hg : g a = .ok r)
    (hcode : r.status_code = 200 ∨ r.status_code = 202)
    (hstat : r.body.getField "cdoTransactionStatus" = none ∨
      ∃ s, r.body.getField "cdoTransactionStatus" = some (.str s) ∧
        s ≠ "DONE" ∧ s ≠ "ERROR") :
    pollGo g url hdrs d a (n + 1) =
      ⟨(pollGo g url hdrs d (a + 1) n).outcome,
       ⟨url, hdrs⟩ :: (pollGo g url hdrs d (a + 1) n).requests,
       d :: (pollGo g url hdrs d (a + 1) n).sleeps⟩ := by
  have hnt : isTerminalStatus (r.body.getField "cdoTransactionStatus") = false := by
    rcases hstat with h | ⟨s, hs, hd, he⟩
    · rw [h]; rfl
    · rw [hs]
      simp [isTerminalStatus, hd, he]
  exact pollGo_step_nonterminal g url hdrs d a n r hg hcode hnt

/-- Closed instance of C6_missing_status_nonterminal: a 200 response with an
empty JSON object body continues the loop with one sleep. -/
theorem C6_missing_status_nonterminal_witness :
    pollGo (fun _ => .ok ⟨200, Json.obj [], ""⟩) "u" (pollHeaders "t") 10 0 (1 + 1) =
      ⟨(pollGo (fun _ => .ok ⟨200, Json.obj [], ""⟩) "u" (pollHeaders "t") 10 (0 + 1) 1).outcome,
       ⟨"u", pollHeaders "t"⟩ ::
         (pollGo (fun _ => .ok ⟨200, Json.obj [], ""⟩) "u" (pollHeaders "t") 10 (0 + 1) 1).requests,
       10 :: (pollGo (fun _ => .ok ⟨200, Json.obj [], ""⟩) "u" (pollHeaders "t") 10 (0 + 1) 1).sleeps⟩ :=
  C6_missing_status_nonterminal _ "u" (pollHeaders "t") 10 0 1
    ⟨200, Json.obj [], ""⟩ rfl (Or.inl rfl) (Or.inl rfl)

/-- Claim C10: the polling loop terminates with at most max_attempts
iterations — it never issues more than max_attempts GET requests nor more
than max_attempts sleeps — and when max_attempts is zero or negative it
returns the timeout sentinel immediately, with no request and no sleep. -/
theorem C10_poll_bounded (g : Nat → Except String Response) (url token : String)
    (ma d : Int) :
    (poll_transaction_status g url token ma d).requests.length ≤ ma.toNat ∧
    (poll_transaction_status g url token ma d).sleeps.length ≤ ma.toNat ∧
    (ma ≤ 0 → poll_transaction_status g url token ma d = ⟨.timeout, [], []⟩) := by
  refine ⟨(pollGo_length_le g url (pollHeaders token) d ma.toNat 0).1,
    (pollGo_length_le g url (pollHeaders token) d ma.toNat 0).2, ?_⟩
  intro hle
  unfold poll_transaction_status
  rw [Int.toNat_of_nonpos hle]
  simp [pollGo]

/-- Closed instance of C10_poll_bounded at max_attempts = -3: no request, no
sleep, timeout sentinel. -/
theorem C10_poll_bounded_witness :
    poll_transaction_status (fun _ => .ok ⟨200, Json.obj [], ""⟩) "u" "t" (-3) 10
      = ⟨.timeout, [], []⟩ :=
  (C10_poll_bounded (fun _ => .ok ⟨200, Json.obj [], ""⟩) "u" "t" (-3) 10).2.2 (by decide)

end Ftd

namespace PollService

open Ftd

/-- The two loop bodies compute the same trace for every argument. -/
theorem pollGo_eq_ftd (g : Nat → Except String Response) (url : String)
    (hdrs : List (String × String)) (d : Int) :
    ∀ (n a : Nat), Ftd.pollGo g url hdrs d a n = PollService.pollGo g url hdrs d a n := by
  intro n
  induction n with
  | zero => intro a; rfl
  | succ n ih =>
    intro a
    simp only [Ftd.pollGo, PollService.pollGo, ih]

/-- Claim C8: the two polling implementations are extensionally equal — for
every response sequence, polling URL, token, attempt budget and delay, the
copy in ftd.py and the copy in poll_service.py produce the same outcome, the
same GET requests and the same sleeps. -/
theorem C8_poll_impls_equal (g : Nat → Except String Response)
    (url token : String) (ma d : Int) :
    Ftd.poll_transaction_status g url token ma d
      = PollService.poll_transaction_status g url token ma d := by
  unfold Ftd.poll_transaction_status PollService.poll_transaction_status
  exact pollGo_eq_ftd g url (pollHeaders token) d ma.toNat 0

end PollService

namespace Ftd

/-- Claim C4: both action invokers raise CDOError on any acknowledgement
status code other than 202 — the message is the fixed prefix followed by
the raw response text, so it contains the response body text — and both
return the parsed JSON body on exactly 202. -/
theorem C4_submission_contract (base_url token device_name serial_number
    access_policy_uuid admin_password device_uuid : String) (response : Response) :
    (response.status_code ≠ 202 →
      (initiate_ftd_onboarding_using_ztp base_url token device_name serial_number
          access_policy_uuid admin_password response).result
        = .error ("Failed to create ZTP request: " ++ response.text) ∧
      (delete_ftd_device base_url token device_uuid response).result
        = .error ("Failed to delete FTD device: " ++ response.text)) ∧
    (response.status_code = 202 →
      (initiate_ftd_onboarding_using_ztp base_url token device_name serial_number
          access_policy_uuid admin_password response).result = .ok response.body ∧
      (delete_ftd_device base_url token device_uuid response).result
        = .ok response.body) := by
  constructor <;> intro h <;>
    simp [initiate_ftd_onboarding_using_ztp, delete_ftd_device, h]

/-- Closed instance of C4_submission_contract: a 500 response raises both
submission errors with the body text, and a 202 response returns the body. -/
theorem C4_submission_contract_witness :
    (initiate_ftd_onboarding_using_ztp "b" "t" "n" "s" "p" "" ⟨500, Json.obj [], "boom"⟩).result
      = .error ("Failed to create ZTP request: " ++ "boom") ∧
    (delete_ftd_device "b" "t" "d" ⟨500, Json.obj [], "boom"⟩).result
      = .error ("Failed to delete FTD device: " ++ "boom") ∧
    (initiate_ftd_onboarding_using_ztp "b" "t" "n" "s" "p" "" ⟨202, Json.obj [], "x"⟩).result
      = .ok (Json.obj []) ∧
    (delete_ftd_device "b" "t" "d" ⟨202, Json.obj [], "x"⟩).result
      = .ok (Json.obj []) := by
  refine ⟨?_, ?_, ?_, ?_⟩
  · exact ((C4_submission_contract "b" "t" "n" "s" "p" "" "d"
      ⟨500, Json.obj [], "boom"⟩).1 (by decide)).1
  · exact ((C4_submission_contract "b" "t" "n" "s" "p" "" "d"
      ⟨500, Json.obj [], "boom"⟩).1 (by decide)).2
  · exact ((C4_submission_contract "b" "t" "n" "s" "p" "" "d"
      ⟨202, Json.obj [], "x"⟩).2 rfl).1
  · exact ((C4_submission_contract "b" "t" "n" "s" "p" "" "d"
      ⟨202, Json.obj [], "x"⟩).2 rfl).2

/-- Claim C5: a 202 acknowledgement whose JSON object body has no
transactionPollingUrl key makes main raise CDOError with message
No polling URL in response, exit with code 1, and issue no poll GET request
and no sleep. -/
theorem C5_missing_polling_url (base_url token device_name serial_number
    access_policy_uuid admin_password : String) (ma d : Int)
    (g : Nat → Except String Response) (fields : List (String × Json))
    (response : Response)
    (hcode : response.status_code = 202)
    (hbody : response.body = Json.obj fields)
    (hmiss : fields.lookup "transactionPollingUrl" = none) :
    mainRun (opToOutcome (initiate_ftd_onboarding_using_ztp base_url token
        device_name serial_number access_policy_uuid admin_password response).result)
      token ma d g
      = ⟨1, some "No polling URL in response", [], [], none⟩ := by
  simp [initiate_ftd_onboarding_using_ztp, hcode, opToOutcome, mainRun, hbody,
    Json.getField, hmiss]

/-- Closed instance of C5_missing_polling_url: a 202 acknowledgement with an
empty object body. -/
theorem C5_missing_polling_url_witness :
    mainRun (opToOutcome (initiate_ftd_onboarding_using_ztp "b" "t" "n" "s" "p" ""
        ⟨202, Json.obj [], "x"⟩).result)
      "t" 300 10 (fun _ => .ok ⟨200, Json.obj [], ""⟩)
      = ⟨1, some "No polling URL in response", [], [], none⟩ :=
  C5_missing_polling_url "b" "t" "n" "s" "p" "" 300 10
    (fun _ => .ok ⟨200, Json.obj [], ""⟩) [] ⟨202, Json.obj [], "x"⟩ rfl rfl rfl

/-- Claim C9: a transactionPollingUrl whose value is the empty string is
treated exactly like an absent field — the check at src/python/ftd.py line
203 is for falsiness — so main raises No polling URL in response, exits with
code 1, and issues no poll request. -/
theorem C9_empty_polling_url (base_url token device_name serial_number
    access_policy_uuid admin_password : String) (ma d : Int)
    (g : Nat → Except String Response) (fields : List (String × Json))
    (response : Response)
    (hcode : response.status_code = 202)
    (hbody : response.body = Json.obj fields)
    (hempty : fields.lookup "transactionPollingUrl" = some (Json.str "")) :
    mainRun (opToOutcome (initiate_ftd_onboarding_using_ztp base_url token
        device_name serial_number access_policy_uuid admin_password response).result)
      token ma d g
      = ⟨1, some "No polling URL in response", [], [], none⟩ := by
  simp [initiate_ftd_onboarding_using_ztp, hcode, opToOutcome, mainRun, hbody,
    Json.getField, hempty, Json.pyFalsy]

/-- Closed instance of C9_empty_polling_url: the acknowledgement body binds
transactionPollingUrl to the empty string. -/
theorem C9_empty_polling_url_witness :
    mainRun (opToOutcome (initiate_ftd_onboarding_using_ztp "b" "t" "n" "s" "p" ""
        ⟨202, Json.obj [("transactionPollingUrl", Json.str "")], "x"⟩).result)
      "t" 300 10 (fun _ => .ok ⟨200, Json.obj [], ""⟩)
      = ⟨1, some "No polling URL in response", [], [], none⟩ :=
  C9_empty_polling_url "b" "t" "n" "s" "p" "" 300 10
    (fun _ => .ok ⟨200, Json.obj [], ""⟩) [("transactionPollingUrl", Json.str "")]
    ⟨202, Json.obj [("transactionPollingUrl", Json.str "")], "x"⟩ rfl rfl rfl

/-- Claim C7: the exit code of main is always 0 or 1, and it is 0 exactly
when the polling loop was reached and ended with the timeout sentinel or a
terminal result; every error path — submission error, missing polling URL,
polling error, transport failure, non-string polling URL — exits with 1.
In particular a timeout exits with code 0. -/
theorem C7_exit_codes (op : OpOutcome) (token : String) (ma d : Int)
    (g : Nat → Except String Response) :
    ((mainRun op token ma d g).exit_code = 0 ∨ (mainRun op token ma d g).exit_code = 1) ∧
    ((mainRun op token ma d g).exit_code = 0 ↔
      ((mainRun op token ma d g).poll_outcome = some .timeout ∨
       ∃ b, (mainRun op token ma d g).poll_outcome = some (.result b))) := by
  cases op with
  | transportError m => simp [mainRun]
  | cdoError m => simp [mainRun]
  | ok body =>
    cases body with
    | null => simp [mainRun]
    | bool b => simp [mainRun]
    | num n => simp [mainRun]
    | str s => simp [mainRun]
    | arr elems => simp [mainRun]
    | obj fields =>
      simp only [mainRun]
      cases hf : (Json.obj fields).getField "transactionPollingUrl" with
      | none => simp
      | some v =>
        by_cases hfal : v.pyFalsy
        · simp [hfal]
        · cases v with
          | null => simp [hfal]
          | bool b => simp [hfal]
          | num n => simp [hfal]
          | arr elems => simp [hfal]
          | obj fs => simp [hfal]
          | str url =>
            simp only [hfal, Bool.false_eq_true, if_false]
            cases ho : (poll_transaction_status g url token ma d).outcome with
            | timeout => simp
            | result b => simp
            | cdoError m => simp
            | transportError m => simp

end Ftd
